import Mathlib

set_option autoImplicit false

/-!
Verification of the vue-useApi request-state manager.

This file shallowly embeds the pieces of the library that carry the
interesting state-machine behaviour:

* the error normalizer (`src/packages/use-api/src/utils/errorParser.ts`),
* one run of the single-request orchestrator body `executeRequest`
  (`src/packages/use-api/src/useApi.ts`, lines 55-157),
* the global abort registry (`src/unnamed/part_005`, `useAbortController`)
  together with the subscription logic of `executeRequest` (useApi.ts 66-78),
* the trailing-edge debounce wrapper (`debounceFn`),
* the token-refresh interceptor queue
  (`src/packages/use-api/src/features/interceptors.ts`, lines 38-166),
* the batch engine (`src/unnamed/part_004`, `useApiBatch`),
* an event-trace model of interleaved `execute()` attempts of one
  orchestrator instance, for the supersede/stale-write properties.

JavaScript is single threaded: each synchronous stretch of code between two
`await` suspension points runs atomically.  The trace models below make each
such stretch one step.  `null`/`undefined` values are modelled with `Option`;
response bodies and request identifiers are `Nat`.
-/

namespace VueUseApi

/-- Uniform error shape produced by the error normalizer (`ApiError` in
`types.ts`).  The optional fields `code`/`errors`/`details` are carried along
by the code but never branched on by the orchestrator, so the model keeps the
two fields the lifecycle logic reads: `message` and `status`. -/
structure ApiErr where
  message : String
  status : Nat
  deriving Repr, DecidableEq

/-- A value thrown inside `executeRequest`: either an axios error carrying a
response (whose `data` may provide `message` or `error` strings), or a plain
`Error` (such as `new Error("Request URL is missing")`). -/
inductive Thrown where
  | axiosWithResponse (dataMessage dataError : Option String) (axiosMessage : String) (st : Nat)
  | plainError (message : String)
  deriving Repr, DecidableEq

/-- `parseApiError` (`utils/errorParser.ts` lines 4-30): an axios error with a
response yields `data?.message || data?.error || axiosError.message ||
"Unknown Error"` and the response status; anything else yields the raw
message with status 0. -/
def parseApiError : Thrown → ApiErr
  | .axiosWithResponse dataMessage dataError axiosMessage st =>
      { message :=
          match dataMessage with
          | some m => m
          | none =>
            match dataError with
            | some m => m
            | none => axiosMessage,
        status := st }
  | .plainError m => { message := m, status := 0 }

/-- The reactive request state held by `useApiState`
(`composables/useApiState.ts`): `data`, `loading`, `error`, `statusCode`.
`none` models JavaScript `null`/`undefined`. -/
structure RequestState where
  data : Option Nat
  loading : Bool
  error : Option ApiErr
  statusCode : Option Nat
  deriving Repr, DecidableEq

/-- Initial request state (`initialData = null`, `initialLoading = false`). -/
def initialRequestState : RequestState :=
  { data := none, loading := false, error := none, statusCode := none }

/-- Outcome of the awaited `axios.request` promise for one attempt:
either resolved with a response (`data` may be `null`), or rejected.
A rejection carries the flag `canceledCode` (`err.code === "ERR_CANCELED"`,
produced by axios when the attempt's own `AbortController` aborts the
request) and the thrown value. -/
inductive TransportOutcome where
  | ok (body : Option Nat) (st : Nat)
  | rejected (canceledCode : Bool) (err : Thrown)
  deriving Repr, DecidableEq

/-- Observable result of one full run of `executeRequest`
(`useApi.ts` lines 55-157) for a fresh, never-aborted local controller:
the final reactive state, the promise result (`some v` when
`response.data` was a value, `none` when it returned `null`), and which
lifecycle hooks ran.  `loadingSetTrue` records whether `setLoading(true)`
was executed at any point during the run. -/
structure ExecOutcome where
  state : RequestState
  ret : Option Nat
  onBeforeCalled : Bool
  loadingSetTrue : Bool
  transportCalled : Bool
  onErrorCalled : Bool
  onFinishCalled : Bool
  deriving Repr, DecidableEq

/-- One run of `executeRequest` (`useApi.ts` lines 55-157), following the
statement order of the source:

1. the URL is resolved at the top of the function (line 59);
2. `onBefore?.()`, `state.setLoading(true)`, `state.setError(null)` run
   unconditionally (lines 81-83);
3. inside the `try`, a falsy resolved URL (`undefined` or the empty string)
   throws `new Error("Request URL is missing")` (lines 94-96) before
   `axios.request` is reached, so no transport call happens;
4. the `catch` treats the failure as a cancellation only when the local
   signal is aborted or the error code is `ERR_CANCELED` (line 115) — for a
   fresh local controller this is decided by `canceledCode` alone;
5. a non-cancelled failure is normalized, stored, `onError` runs, and the
   function returns `null` (lines 121-134);
6. the `finally` runs `setLoading(false)` and `onFinish` only when the run
   was not cancelled (lines 135-140); `setData` also clears `error`
   (`useApiState.setData`). -/
def executeOnce (s0 : RequestState) (url : Option String)
    (transport : TransportOutcome) : ExecOutcome :=
  let s1 : RequestState := { s0 with loading := true, error := none }
  if url = none ∨ url = some "" then
    let e := parseApiError (.plainError "Request URL is missing")
    { state := { s1 with error := some e, statusCode := some e.status, loading := false },
      ret := none,
      onBeforeCalled := true, loadingSetTrue := true, transportCalled := false,
      onErrorCalled := true, onFinishCalled := true }
  else
    match transport with
    | .ok body st =>
        { state := { s1 with
                      data := body, error := none, statusCode := some st,
                      loading := false },
          ret := body,
          onBeforeCalled := true, loadingSetTrue := true, transportCalled := true,
          onErrorCalled := false, onFinishCalled := true }
    | .rejected canceledCode err =>
        if canceledCode then
          { state := s1, ret := none,
            onBeforeCalled := true, loadingSetTrue := true, transportCalled := true,
            onErrorCalled := false, onFinishCalled := false }
        else
          let e := parseApiError err
          { state := { s1 with
                        error := some e, statusCode := some e.status,
                        loading := false },
            ret := none,
            onBeforeCalled := true, loadingSetTrue := true, transportCalled := true,
            onErrorCalled := true, onFinishCalled := true }

/-!
## Global abort registry (`src/unnamed/part_005`, `useAbortController`)

The module holds one singleton `AbortController` plus a ref `abortCount`.
`abort()` increments `abortCount`, then aborts the current controller
(firing all handlers subscribed to its signal), then allocates a fresh
controller.  Successive controllers are identified here by the value
`abortCount` had when they became current: the initial controller is `0`,
and the controller allocated by the k-th `abort()` call is `k`.
-/

/-- Registry state: `gen` is `abortCount.value`; `liveCtrl` identifies the
currently allocated `AbortController`. -/
structure Registry where
  gen : Nat
  liveCtrl : Nat
  deriving Repr, DecidableEq

/-- A registry whose count is `g` and whose controller was allocated by the
g-th abort (the reachable shape of the singleton). -/
def mkRegistry (g : Nat) : Registry := { gen := g, liveCtrl := g }

/-- `abort()` (`part_005` lines 30-35): increment the count FIRST, then abort
the live controller, then replace it with a fresh one. -/
def registryAbort (r : Registry) : Registry :=
  { gen := r.gen + 1, liveCtrl := r.gen + 1 }

/-- `registryAbort` iterated `k` times. -/
def registryAfter (r : Registry) : Nat → Registry
  | 0 => r
  | k + 1 => registryAbort (registryAfter r k)

/-- The subscription created by `executeRequest` (`useApi.ts` lines 66-78):
it captures the current signal (our controller id) and
`currentCount = globalAbort.abortCount.value`. -/
structure GlobalSub where
  ctrl : Nat
  captured : Nat
  deriving Repr, DecidableEq

/-- Subscribing reads the live controller signal and the current count
(`useApi.ts` lines 69-76).  The live controller is never in the aborted
state between events (abort and replacement happen in one synchronous
stretch), so the `!gs.aborted` guard always passes and the subscription is
installed. -/
def subscribeGlobal (r : Registry) : GlobalSub :=
  { ctrl := r.liveCtrl, captured := r.gen }

/-- The abort-event handler body (`useApi.ts` line 74): abort the local
controller iff `globalAbort.abortCount.value === currentCount` at the time
the event fires. -/
def handlerBody (sub : GlobalSub) (countAtFire : Nat) : Bool :=
  countAtFire == sub.captured

/-- Whether a `registryAbort` performed on registry `r` aborts the local
controller of subscription `sub`: the handler runs only if `sub` is attached
to the controller being aborted (`r.liveCtrl`), and when it runs,
`abortCount` has already been incremented to `r.gen + 1`
(`part_005` line 32: the count is incremented before `abortController.abort()`
fires the event). -/
def globalAbortCancelsLocal (r : Registry) (sub : GlobalSub) : Bool :=
  (sub.ctrl == r.liveCtrl) && handlerBody sub (r.gen + 1)

/-!
## Debounce wrapper (`debounceFn`, the file also holding `errorParser.ts`)

`debounceFn(fn, delay)` keeps one `timeoutId`.  Every call creates a brand
new `Promise` and captures its `resolve` inside the timer callback; a later
call clears the pending timer, so the earlier promise's `resolve` is never
invoked.  When the pending timer fires, `fn` runs once and resolves only the
promise created by the call that armed that timer.
-/

/-- Status of the promise returned by one call of the debounced wrapper. -/
inductive PStatus where
  | pending
  | resolved (v : Option Nat)
  deriving Repr, DecidableEq

/-- Debounce wrapper state: `timeoutId` holds the index of the call whose
timer is currently armed; `promises` is the status of every returned
promise in call order; `invocations` counts runs of the wrapped `fn`. -/
structure DebState where
  timeoutId : Option Nat
  promises : List PStatus
  invocations : Nat
  deriving Repr, DecidableEq

/-- The debounce state before any call. -/
def debInit : DebState := { timeoutId := none, promises := [], invocations := 0 }

/-- Events of the debounced wrapper: a call of the wrapper, or the pending
timer firing (after `delay` ms with no further call), with the wrapped
function's eventual result `v`. -/
inductive DebEv where
  | call
  | fire (v : Option Nat)
  deriving Repr, DecidableEq

/-- One step of `debounceFn` (lines 31-50 of the file holding
`errorParser.ts`):

* `call`: `clearTimeout(timeoutId)` discards the previously armed timer —
  the promise of the call that armed it keeps status `pending` forever —
  and a new timer is armed for this call's fresh promise;
* `fire v`: the armed timer runs `fn` once (`invocations + 1`) and resolves
  exactly the promise of the call that armed it, then clears `timeoutId`. -/
def debStep (s : DebState) : DebEv → DebState
  | .call =>
      { s with
          timeoutId := some s.promises.length,
          promises := s.promises ++ [.pending] }
  | .fire v =>
      match s.timeoutId with
      | none => s
      | some i =>
          { timeoutId := none,
            promises := s.promises.set i (.resolved v),
            invocations := s.invocations + 1 }

/-- Run the debounce wrapper over a sequence of events. -/
def runDeb (s : DebState) (evs : List DebEv) : DebState :=
  evs.foldl debStep s

/-!
## Token-refresh interceptor queue (`features/interceptors.ts`, lines 38-166)

Module state: `failedQueue` (one entry per request that hit 401 while a
refresh was in flight; `push` appends, so the list is in enqueue order) and
the flag `isRefreshing`.  The response interceptor, for a 401 on a
default-auth, not-yet-retried request (retried and `public`/`optional`
requests propagate untouched, lines 80-86), checks the branches in source
order:

* if the request URL contains the refresh URL (lines 88-94): reset
  `isRefreshing`, drain the queue with rejection, clear tokens, invoke
  `onTokenRefreshFailed`, reject — this branch runs even while another
  refresh call is outstanding, and such a request is never enqueued;
* else while `isRefreshing` (line 96): enqueue the request and do not
  issue a second refresh call;
* otherwise (lines 109-155): become an initiator — set `isRefreshing`,
  issue a refresh network call, and on its resolution persist the token,
  drain the queue via `processQueue` (lines 41-47: `forEach` in list
  order, so FIFO), each entry re-issuing its request with the new token,
  then retry the initiator itself;
* on refresh rejection (lines 157-163): drain the queue with rejection,
  clear tokens, invoke `onTokenRefreshFailed`, reject the initiator;
* `finally` clears `isRefreshing` (lines 164-166).

Each of those stretches runs atomically (single-threaded event loop); the
awaited refresh calls are the only suspensions, modelled by the separate
settle events below.  Because the lines 88-94 branch can reset
`isRefreshing` while a refresh call is still outstanding, a later 401 can
start a second concurrent refresh; each settle event therefore names the
initiator whose call settles, and the ghost list `pendingRefreshes` tracks
the initiators of all outstanding refresh calls in issue order.
-/

/-- Interceptor module state plus observation logs.  `resolutions` records,
in issue order, each retried request together with the token its retry used;
`rejections` records requests whose promise was rejected; `failedCb` counts
`onTokenRefreshFailed` invocations; `refreshCalls` counts refresh network
calls issued, `settles` counts their settlements, and `pendingRefreshes`
holds the initiators of the refresh calls still outstanding (ghost). -/
structure ItcState where
  isRefreshing : Bool
  failedQueue : List Nat
  pendingRefreshes : List Nat
  refreshCalls : Nat
  settles : Nat
  storedToken : Option String
  resolutions : List (Nat × String)
  rejections : List Nat
  failedCb : Nat
  deriving Repr, DecidableEq

/-- Interceptor state before any 401. -/
def itcInit : ItcState :=
  { isRefreshing := false, failedQueue := [], pendingRefreshes := [],
    refreshCalls := 0, settles := 0, storedToken := none,
    resolutions := [], rejections := [], failedCb := 0 }

/-- Interceptor events: an ordinary default-auth request hits 401
(`hit401 id`); a default-auth, not-yet-retried request whose URL contains
the refresh URL hits 401 (`refreshUrl401 id`, the lines 88-94 branch); or
the outstanding refresh call issued for initiator `i0` settles
(`refreshOk i0 token` / `refreshFail i0`). -/
inductive ItcEv where
  | hit401 (id : Nat)
  | refreshUrl401 (id : Nat)
  | refreshOk (i0 : Nat) (token : String)
  | refreshFail (i0 : Nat)
  deriving Repr, DecidableEq

/-- One atomic stretch of the response interceptor (`interceptors.ts`):

* `hit401 id` while refreshing (line 96): append `id` to `failedQueue`;
* `hit401 id` otherwise (lines 109-110): mark `_retry`, set `isRefreshing`,
  issue a refresh call (`refreshCalls + 1`, `id` added to the outstanding
  initiators);
* `refreshUrl401 id` (lines 88-94, checked before the `isRefreshing`
  branch): set `isRefreshing := false`, reject every queued entry in order,
  clear tokens, run `onTokenRefreshFailed`, reject the request itself —
  any outstanding refresh call stays in flight;
* `refreshOk i0 token` (lines 144-155, the settling initiator's `try`):
  persist the token, `processQueue` resolves every currently queued entry
  with `token` in list (FIFO) order — each resolve closure immediately
  re-issues its request with the refreshed header (lines 100-103) — then
  the initiator `i0` itself is retried; the `finally` clears
  `isRefreshing`;
* `refreshFail i0` (lines 157-166): `processQueue` rejects every queued
  entry in order, tokens are cleared, `onTokenRefreshFailed` runs, the
  initiator rejects, and the `finally` clears `isRefreshing`. -/
def itcStep (s : ItcState) : ItcEv → ItcState
  | .hit401 id =>
      if s.isRefreshing then
        { s with failedQueue := s.failedQueue ++ [id] }
      else
        { s with
            isRefreshing := true,
            pendingRefreshes := s.pendingRefreshes ++ [id],
            refreshCalls := s.refreshCalls + 1 }
  | .refreshUrl401 id =>
      { s with
          isRefreshing := false,
          rejections := s.rejections ++ s.failedQueue ++ [id],
          storedToken := none,
          failedCb := s.failedCb + 1,
          failedQueue := [] }
  | .refreshOk i0 token =>
      { s with
          storedToken := some token,
          resolutions := s.resolutions ++ s.failedQueue.map (fun id => (id, token))
                          ++ [(i0, token)],
          failedQueue := [],
          pendingRefreshes := s.pendingRefreshes.erase i0,
          isRefreshing := false,
          settles := s.settles + 1 }
  | .refreshFail i0 =>
      { s with
          rejections := s.rejections ++ s.failedQueue ++ [i0],
          storedToken := none,
          failedCb := s.failedCb + 1,
          failedQueue := [],
          pendingRefreshes := s.pendingRefreshes.erase i0,
          isRefreshing := false,
          settles := s.settles + 1 }

/-- Run the interceptor machine over a sequence of events. -/
def runItc (s : ItcState) (evs : List ItcEv) : ItcState :=
  evs.foldl itcStep s

/-- Guard of one interceptor event: a refresh settlement presupposes that
the named initiator's call is outstanding. -/
def itcGuard (s : ItcState) : ItcEv → Bool
  | .hit401 _ => true
  | .refreshUrl401 _ => true
  | .refreshOk i0 _ => s.pendingRefreshes.contains i0
  | .refreshFail i0 => s.pendingRefreshes.contains i0

/-- Trace well-formedness: settle events name an outstanding refresh
call. -/
def itcWF (s : ItcState) : List ItcEv → Bool
  | [] => true
  | e :: rest => itcGuard s e && itcWF (itcStep s e) rest

/-- Recognizer for the events that fire `onTokenRefreshFailed`: a refresh
rejection (lines 157-166) or a 401 on a refresh-URL request
(lines 88-94). -/
def isRefreshFailureEv : ItcEv → Bool
  | .refreshFail _ => true
  | .refreshUrl401 _ => true
  | _ => false

/-- The proviso under which the refresh protocol is single-flight: no
refresh-URL 401 (the lines 88-94 reset) arrives while a refresh call is
outstanding. -/
def itcNoResetDuringRefresh (s : ItcState) : List ItcEv → Bool
  | [] => true
  | e :: rest =>
      (match e with
       | .refreshUrl401 _ => !s.isRefreshing
       | _ => true) && itcNoResetDuringRefresh (itcStep s e) rest

/-- Demo trace: three requests hit 401 in a row — the first becomes the
refresh initiator, the next two arrive while the refresh is outstanding
and are queued. -/
def itcDemoTrace : List ItcEv := [.hit401 10, .hit401 11, .hit401 12]

/-!
## Batch engine (`src/unnamed/part_004`, `useApiBatch`)
-/

/-- `BatchResultItem` (`types.ts`): one entry per input URL. -/
structure BatchResultItem where
  url : String
  index : Nat
  success : Bool
  data : Option Nat
  error : Option ApiErr
  statusCode : Option Nat
  deriving Repr, DecidableEq

/-- The item built by the batch `executeRequest` (`part_004` lines 132-161)
from the awaited per-item `execute` result: if the item's signal was aborted
the item is a synthetic `"Request aborted"` failure (lines 135-144);
otherwise `success` is `result !== null && result !== undefined`
(line 149), `data` is `result ?? null`, and `error`/`statusCode` are read
from the per-item hook state. -/
def mkBatchItem (url : String) (index : Nat) (signalAborted : Bool)
    (ret : Option Nat) (reqError : Option ApiErr) (status : Option Nat) :
    BatchResultItem :=
  if signalAborted then
    { url := url, index := index, success := false, data := none,
      error := some { message := "Request aborted", status := 0 },
      statusCode := none }
  else
    { url := url, index := index, success := ret.isSome, data := ret,
      error := reqError, statusCode := status }

/-- `successfulData` (`part_004` lines 97-101): filter the items with
`success && data !== null`, keep their data. -/
def successfulData (items : List BatchResultItem) : List Nat :=
  (items.filter (fun it => it.success && it.data.isSome)).filterMap
    (fun it => it.data)

/-- Environment of one batch item: what the underlying single-request
orchestrator delivers when the item settles — the `execute` return value
and the per-item `error`/`statusCode` reactive state read right after. -/
structure ItemEnv where
  ret : Option Nat
  reqError : Option ApiErr
  status : Option Nat
  deriving Repr, DecidableEq

/-- State of one batch `execute()` run (`part_004`): the bounded-mode claim
pointer `currentIndex`, the `isAborted` flag, the live `abortControllers`
list `tracked` (holding the item index each controller belongs to), the
results array (a map from index to the recorded item), plus ghost logs
`ctrlAborted` (controllers that received `.abort()`) and `claimed`
(indices whose request was started). -/
structure BatchState where
  currentIndex : Nat
  isAborted : Bool
  tracked : List Nat
  ctrlAborted : List Nat
  results : Nat → Option BatchResultItem
  claimed : List Nat

/-- Batch state right after the reset at the top of `execute()`
(`part_004` lines 272-279). -/
def batchInit : BatchState :=
  { currentIndex := 0, isAborted := false, tracked := [], ctrlAborted := [],
    results := fun _ => none, claimed := [] }

/-- Events of one batch execution:

* `launch i` — unbounded mode (lines 191-216): the synchronous `urls.map`
  creates an independent controller for index `i`, pushes it into
  `abortControllers`, and starts the request;
* `claimNext` — one iteration of a bounded-concurrency worker
  (lines 227-254): claim `currentIndex` if in range and not aborted,
  create the item's controller, start the request; otherwise the worker
  stops;
* `settle i` — the per-item request finishes and `results[index] = result`
  (lines 197-198 and 235-236) writes the item at its original index;
* `abortAll` — `abort(reason)` (lines 309-315): set `isAborted`, abort
  every tracked controller, clear the list. -/
inductive BEv where
  | launch (i : Nat)
  | claimNext
  | settle (i : Nat)
  | abortAll
  deriving Repr, DecidableEq

/-- One step of the batch machine.  `urls` is the resolved URL list and
`env` the per-index settle environment.  A settle records
`mkBatchItem` at the item's original index; the item's signal counts as
aborted when its controller was aborted before the settle. -/
def batchStep (urls : List String) (env : Nat → ItemEnv) (s : BatchState) :
    BEv → BatchState
  | .launch i =>
      { s with tracked := s.tracked ++ [i], claimed := s.claimed ++ [i] }
  | .claimNext =>
      if s.currentIndex < urls.length ∧ s.isAborted = false then
        { s with
            currentIndex := s.currentIndex + 1,
            tracked := s.tracked ++ [s.currentIndex],
            claimed := s.claimed ++ [s.currentIndex] }
      else s
  | .settle i =>
      let e := env i
      let item := mkBatchItem (urls.getD i "") i (s.ctrlAborted.contains i)
        e.ret e.reqError e.status
      { s with results := fun j => if j = i then some item else s.results j }
  | .abortAll =>
      { s with
          isAborted := true,
          ctrlAborted := s.ctrlAborted ++ s.tracked,
          tracked := [] }

/-- Run the batch machine over a sequence of events. -/
def runBatch (urls : List String) (env : Nat → ItemEnv) (s : BatchState)
    (evs : List BEv) : BatchState :=
  evs.foldl (batchStep urls env) s

/-- Events a bounded-concurrency worker or an item settlement can produce
after the batch was aborted (no new `execute()` reset, no further abort
needed). -/
def isWorkerEv : BEv → Bool
  | .claimNext => true
  | .settle _ => true
  | _ => false

/-- The item the batch is expected to record at index `i` when nothing was
aborted: built from the item's URL, its original index and its settle
environment. -/
def expectedItem (urls : List String) (env : Nat → ItemEnv) (i : Nat) :
    BatchResultItem :=
  mkBatchItem (urls.getD i "") i false (env i).ret (env i).reqError (env i).status

/-- Last-write-wins semantics of a JavaScript object literal, restricted to
one key: the entries are the values successively written to that key in
source order (`none` when an entry does not write it); the finished object
holds the last value written. -/
def lastWrite (entries : List (Option Nat)) : Option Nat :=
  entries.foldl (fun acc e => match e with | some v => some v | none => acc) none

/-- The `signal` key of the axios request literal built by `executeRequest`
(`useApi.ts` lines 98-107).  In source order the literal writes
`...axiosConfig` (the hook options — they carry no abort signal),
`...config` (the caller's per-call config: a batch item passes its
independent per-item controller signal here, `part_004` line 133), and then
the explicit entry `signal: controller.signal` (the orchestrator's
internal controller).  Signals are identified by ids. -/
def axiosRequestSignal (configSignal : Option Nat) (internalCtrl : Nat) :
    Option Nat :=
  lastWrite [none, configSignal, some internalCtrl]

/-- Demo URL list for concrete batch runs. -/
def batchDemoUrls : List String := ["/users/1", "/users/2"]

/-- Demo settle environment: item `i` resolves with body `i` and status 200. -/
def batchDemoEnv : Nat → ItemEnv :=
  fun i => { ret := some i, reqError := none, status := some 200 }

/-- Demo batch trace: both items launched, settling in reverse order. -/
def batchDemoTrace : List BEv := [.launch 0, .launch 1, .settle 1, .settle 0]

/-!
## Interleaved `execute()` attempts of one orchestrator (`useApi.ts`)

Attempts of one `useApi` instance are numbered in call order.  Each
`execute()` call runs its synchronous prefix atomically (lines 55-107 up to
`await axios.request`): it aborts the previous local controller
("Cancelled by new request", line 61), installs a fresh controller as
`abortController.value`, and runs `onBefore`/`setLoading(true)`/
`setError(null)`.  The attempt's continuation (the `then`/`catch`/`finally`
of the `await`, lines 109-156) runs atomically when the transport promise
settles.

The transport contract (spec section 6: the transport "rejects with a
distinguishable cancelled condition") is part of trace well-formedness:
when an attempt's controller was aborted before its transport promise
settled, the promise rejects with `ERR_CANCELED`.
-/

/-- State of one orchestrator instance across interleaved attempts:
the reactive request state, the identity of the current local controller
(`abortController.value`), the set of aborted controllers, and ghost logs
of started and settled attempts plus an `onFinish` counter. -/
structure OrchState where
  req : RequestState
  current : Option Nat
  aborted : List Nat
  started : List Nat
  settled : List Nat
  finishes : Nat
  deriving Repr, DecidableEq

/-- Orchestrator state before any attempt. -/
def orchInit : OrchState :=
  { req := initialRequestState, current := none, aborted := [],
    started := [], settled := [], finishes := 0 }

/-- Events: `start i` is the synchronous prefix of the i-th `execute()`
call; `settle i t` is the i-th attempt's continuation running with
transport outcome `t`. -/
inductive OEv where
  | start (i : Nat)
  | settle (i : Nat) (t : TransportOutcome)
  deriving Repr, DecidableEq

/-- Synchronous prefix of `executeRequest` (lines 55-107): abort the
previous controller, install controller `i`, `onBefore`,
`setLoading(true)`, `setError(null)`. -/
def orchStart (s : OrchState) (i : Nat) : OrchState :=
  { s with
      aborted := match s.current with
                 | some c => s.aborted ++ [c]
                 | none => s.aborted,
      current := some i,
      started := s.started ++ [i],
      req := { s.req with loading := true, error := none } }

/-- Continuation of attempt `i` (lines 109-156): on resolution, store
data/status (`setData` clears `error`) and finish; on rejection, when the
attempt's own controller is aborted or the code is `ERR_CANCELED`
(line 115) nothing is written and the `finally` is short-circuited;
otherwise the error is normalized and stored and the `finally` runs. -/
def orchSettle (s : OrchState) (i : Nat) (t : TransportOutcome) : OrchState :=
  match t with
  | .ok body st =>
      { s with
          req := { data := body, error := none, statusCode := some st,
                   loading := false },
          settled := s.settled ++ [i],
          finishes := s.finishes + 1 }
  | .rejected canceledCode err =>
      if s.aborted.contains i || canceledCode then
        { s with settled := s.settled ++ [i] }
      else
        let e := parseApiError err
        { s with
            req := { s.req with
                      error := some e, statusCode := some e.status,
                      loading := false },
            settled := s.settled ++ [i],
            finishes := s.finishes + 1 }

/-- One orchestrator step. -/
def orchStep (s : OrchState) : OEv → OrchState
  | .start i => orchStart s i
  | .settle i t => orchSettle s i t

/-- Run the orchestrator machine over a sequence of events. -/
def runOrch (s : OrchState) (evs : List OEv) : OrchState :=
  evs.foldl orchStep s

/-- Recognizer for `ERR_CANCELED` transport rejections. -/
def isCanceledOutcome : TransportOutcome → Bool
  | .rejected true _ => true
  | _ => false

/-- Guard of one orchestrator event: attempt identifiers are fresh, an
attempt settles at most once and only after it started, and — the
transport contract — an attempt whose controller was aborted before its
settlement settles as an `ERR_CANCELED` rejection. -/
def orchGuard (s : OrchState) : OEv → Bool
  | .start i => !s.started.contains i
  | .settle i t =>
      s.started.contains i && !s.settled.contains i &&
      (!s.aborted.contains i || isCanceledOutcome t)

/-- Trace well-formedness for interleaved attempts. -/
def orchWF (s : OrchState) : List OEv → Bool
  | [] => true
  | e :: rest => orchGuard s e && orchWF (orchStep s e) rest

/-- Attempt `i` has been superseded: it started, but a later `execute()`
call replaced it as the owner of the request state. -/
def superseded (s : OrchState) (i : Nat) : Bool :=
  s.started.contains i && s.current != some i

/-- Demo prefix: two rapid `execute()` calls; attempt 0 is superseded by
attempt 1 before settling. -/
def orchDemoPre : List OEv := [.start 0, .start 1]

/-!
## Helper lemmas
-/

theorem runItc_append (s : ItcState) (a b : List ItcEv) :
    runItc s (a ++ b) = runItc (runItc s a) b := by
  simp [runItc, List.foldl_append]

theorem runBatch_append (urls : List String) (env : Nat → ItemEnv)
    (s : BatchState) (a b : List BEv) :
    runBatch urls env s (a ++ b) = runBatch urls env (runBatch urls env s a) b := by
  simp [runBatch, List.foldl_append]

theorem runOrch_append (s : OrchState) (a b : List OEv) :
    runOrch s (a ++ b) = runOrch (runOrch s a) b := by
  simp [runOrch, List.foldl_append]

theorem runDeb_append (s : DebState) (a b : List DebEv) :
    runDeb s (a ++ b) = runDeb (runDeb s a) b := by
  simp [runDeb, List.foldl_append]

theorem orchWF_append (s : OrchState) (a b : List OEv) :
    orchWF s (a ++ b) = (orchWF s a && orchWF (runOrch s a) b) := by
  induction a generalizing s with
  | nil => simp [orchWF, runOrch]
  | cons e rest ih =>
      have hr : runOrch s (e :: rest) = runOrch (orchStep s e) rest := by
        simp [runOrch]
      simp only [List.cons_append, orchWF, List.append_eq, ih, hr, Bool.and_assoc]

/-!
## Claim C8: missing URL yields a local error, no transport, null result
-/

/-- Claim C8: if the URL resolves to empty/undefined at `execute()` time,
the attempt fails with a "Request URL is missing" error synthesized without
any transport call: the error is stored in the request's error state and
`execute` resolves to `null` rather than throwing.  Stated for both falsy
resolutions (`undefined` and the empty string), for every prior state and
every would-be transport outcome. -/
theorem missing_url_local_error (s0 : RequestState) (t : TransportOutcome) :
    ((executeOnce s0 none t).state.error =
        some { message := "Request URL is missing", status := 0 } ∧
      (executeOnce s0 none t).ret = none ∧
      (executeOnce s0 none t).transportCalled = false) ∧
    ((executeOnce s0 (some "") t).state.error =
        some { message := "Request URL is missing", status := 0 } ∧
      (executeOnce s0 (some "") t).ret = none ∧
      (executeOnce s0 (some "") t).transportCalled = false) := by
  constructor <;>
    exact ⟨by simp [executeOnce, parseApiError], by simp [executeOnce],
      by simp [executeOnce]⟩

/-!
## Claim C9: order of the missing-URL failure relative to onBefore/loading

The claim asserts the missing-URL failure happens before `onBefore` is
invoked and before loading is set; in the source (`useApi.ts` lines 81-96)
`onBefore?.()` and `state.setLoading(true)` run unconditionally before the
`if (!requestUrl) throw ...` check inside the `try`.
-/

/-- Claim C9 counterexample: executing with a missing URL from the initial
state, `onBefore` IS invoked and loading IS set to true — refuting
"for a missing URL, onBefore is not invoked and loading is never set to
true". -/
theorem missing_url_order_counterexample :
    (executeOnce initialRequestState none (.ok none 200)).onBeforeCalled = true ∧
    (executeOnce initialRequestState none (.ok none 200)).loadingSetTrue = true := by
  decide

/-- Claim C9 (amended): the URL is resolved at the start of `execute`, but
the missing-URL failure is raised inside the `try` after `onBefore` has
been invoked and loading has been set to true; the failure still precedes
any transport call, and the `finally` resets loading to false. -/
theorem missing_url_after_hooks (s0 : RequestState) (t : TransportOutcome) :
    (executeOnce s0 none t).onBeforeCalled = true ∧
    (executeOnce s0 none t).loadingSetTrue = true ∧
    (executeOnce s0 none t).transportCalled = false ∧
    (executeOnce s0 none t).state.loading = false ∧
    (executeOnce s0 none t).onFinishCalled = true := by
  refine ⟨?_, ?_, ?_, ?_, ?_⟩ <;> simp [executeOnce]

/-!
## Claim C3: global abort registry versus outstanding attempts

`useAbortController.abort` (`part_005` lines 30-35) increments `abortCount`
BEFORE aborting the controller, so every abort-event handler observes the
incremented count; the handler installed by `executeRequest`
(`useApi.ts` line 74) aborts the local controller only when the observed
count still EQUALS the count captured at subscription time.  These two can
never agree, so no registry abort ever cancels a subscribed attempt.
-/

/-- Iterating the registry abort from a reachable registry yields the
registry at the advanced generation. -/
theorem registryAfter_mkRegistry (g k : Nat) :
    registryAfter (mkRegistry g) k = mkRegistry (g + k) := by
  induction k with
  | zero => rfl
  | succ k ih =>
      show registryAbort (registryAfter (mkRegistry g) k) = _
      rw [ih]
      have h : g + k + 1 = g + (k + 1) := by omega
      simp only [registryAbort, mkRegistry, h]

/-- Claim C3: the claim asserts that a generation advance while an attempt
is outstanding aborts the attempt's local token.  The code does the
opposite: for an attempt subscribed at generation `g`, the registry abort
performed after `k` further generation advances never fires the local
abort — in particular (`k = 0`) the very first abort after subscribing,
exactly the scenario the claim says must cancel the attempt, does not.
The handler compares the already-incremented `abortCount` with the
captured one for equality, which always fails. -/
theorem global_abort_never_cancels_local (g k : Nat) :
    globalAbortCancelsLocal (registryAfter (mkRegistry g) k)
      (subscribeGlobal (mkRegistry g)) = false := by
  rw [registryAfter_mkRegistry]
  have h2 : ((g + k + 1) == g) = false := by
    simp only [beq_eq_false_iff_ne, ne_eq]
    omega
  simp [globalAbortCancelsLocal, handlerBody, subscribeGlobal, mkRegistry, h2]

/-!
## Claim C5: debounced callers and the shared result
-/

/-- Claim C5 counterexample: two `execute()` calls inside one debounce
window followed by the timer firing with result 7.  Exactly one underlying
invocation happens, but the FIRST call's promise is still pending — it is
never resolved with the eventual result, refuting "every one of those
calls' returned promises resolves with that single eventual result". -/
theorem debounce_first_caller_unresolved :
    (runDeb debInit [.call, .call, .fire (some 7)]).invocations = 1 ∧
    (runDeb debInit [.call, .call, .fire (some 7)]).promises =
      [.pending, .resolved (some 7)] := by
  decide

/-- After `m` wrapper calls the debounce state holds `m` pending promises
and the timer armed for the last call. -/
theorem runDeb_calls (m : Nat) :
    runDeb debInit (List.replicate m .call) =
      { timeoutId := if m = 0 then none else some (m - 1),
        promises := List.replicate m .pending,
        invocations := 0 } := by
  induction m with
  | zero => rfl
  | succ m ih =>
      rw [List.replicate_succ' m DebEv.call, runDeb_append, ih]
      simp only [runDeb, List.foldl_cons, List.foldl_nil, debStep]
      simp [List.replicate_succ' m PStatus.pending]

/-- Setting the last position of `replicate n a ++ [b]` replaces `b`. -/
theorem set_last_replicate (n : Nat) (a b c : PStatus) :
    (List.replicate n a ++ [b]).set n c = List.replicate n a ++ [c] := by
  induction n with
  | zero => rfl
  | succ n ih => simp [List.replicate_succ, List.set, ih]

/-- Claim C5 (amended): when `debounce > 0`, any `n + 1` `execute()` calls
inside one window collapse to exactly one underlying invocation, fired
after the window elapses from the last call; that invocation's result
resolves ONLY the last call's promise, while the `n` earlier calls'
promises are left forever pending (neither resolved nor rejected). -/
theorem debounce_only_last_caller_resolves (n : Nat) (v : Option Nat) :
    runDeb debInit (List.replicate (n + 1) DebEv.call ++ [DebEv.fire v]) =
      { timeoutId := none,
        promises := List.replicate n .pending ++ [.resolved v],
        invocations := 1 } := by
  rw [runDeb_append, runDeb_calls]
  simp [runDeb, debStep, List.replicate_succ' n PStatus.pending, set_last_replicate]

/-!
## Claim C10: a 2xx response with a null body yields a failed batch item
-/

/-- Claim C10: a batch item is marked successful only when the underlying
`execute()` result is neither null nor undefined; `execute` returns the raw
response body, so a transport-successful response whose body is null
produces `success = false`, and the item is excluded from
`successfulData`.  (`reqError`/`statusCode` passed to the item are the
per-item hook state after the run: no error was stored, the status was.) -/
theorem null_body_item_failed (s0 : RequestState) (u : String) (st i : Nat)
    (h : ¬ u = "") :
    (mkBatchItem u i false (executeOnce s0 (some u) (.ok none st)).ret
        (executeOnce s0 (some u) (.ok none st)).state.error
        (executeOnce s0 (some u) (.ok none st)).state.statusCode) =
      { url := u, index := i, success := false, data := none,
        error := none, statusCode := some st } ∧
    successfulData
      [mkBatchItem u i false (executeOnce s0 (some u) (.ok none st)).ret
        (executeOnce s0 (some u) (.ok none st)).state.error
        (executeOnce s0 (some u) (.ok none st)).state.statusCode] = [] := by
  have hr : executeOnce s0 (some u) (.ok none st) =
      { state := { s0 with
                    data := none, error := none, statusCode := some st,
                    loading := false },
        ret := none,
        onBeforeCalled := true, loadingSetTrue := true, transportCalled := true,
        onErrorCalled := false, onFinishCalled := true } := by
    simp [executeOnce, h]
  rw [hr]
  constructor
  · simp [mkBatchItem]
  · simp [mkBatchItem, successfulData]

/-- Witness for C10 at a concrete input. -/
theorem null_body_item_failed_witness :
    (mkBatchItem "/users" 0 false
        (executeOnce initialRequestState (some "/users") (.ok none 200)).ret
        (executeOnce initialRequestState (some "/users") (.ok none 200)).state.error
        (executeOnce initialRequestState (some "/users") (.ok none 200)).state.statusCode) =
      { url := "/users", index := 0, success := false, data := none,
        error := none, statusCode := some 200 } ∧
    successfulData
      [mkBatchItem "/users" 0 false
        (executeOnce initialRequestState (some "/users") (.ok none 200)).ret
        (executeOnce initialRequestState (some "/users") (.ok none 200)).state.error
        (executeOnce initialRequestState (some "/users") (.ok none 200)).state.statusCode] = [] :=
  null_body_item_failed initialRequestState "/users" 200 0 (by decide)

/-!
## Claims C2 and C4: the token-refresh queue
-/

/-- One interceptor step changes the failure-callback counter exactly on a
refresh-failure event (refresh rejection or refresh-URL 401). -/
theorem itcStep_failedCb (s : ItcState) (e : ItcEv) :
    (itcStep s e).failedCb = s.failedCb + (if isRefreshFailureEv e then 1 else 0) := by
  cases e with
  | hit401 id =>
      by_cases hr : s.isRefreshing <;> simp [itcStep, isRefreshFailureEv, hr]
  | refreshUrl401 id => simp [itcStep, isRefreshFailureEv]
  | refreshOk i0 tok => simp [itcStep, isRefreshFailureEv]
  | refreshFail i0 => simp [itcStep, isRefreshFailureEv]

/-- Over any event sequence, `onTokenRefreshFailed` has run once per
refresh-failure event. -/
theorem runItc_failedCb (s : ItcState) (evs : List ItcEv) :
    (runItc s evs).failedCb = s.failedCb + (evs.filter isRefreshFailureEv).length := by
  induction evs generalizing s with
  | nil => simp [runItc]
  | cons e rest ih =>
      have h1 : runItc s (e :: rest) = runItc (itcStep s e) rest := by simp [runItc]
      rw [h1, ih, itcStep_failedCb, List.filter_cons]
      by_cases he : isRefreshFailureEv e
      · simp [he]
        omega
      · simp [he]

/-- Bookkeeping: refresh calls issued equal settlements plus the calls
still outstanding, over any well-formed trace. -/
theorem itc_calls_accounting (s : ItcState) (evs : List ItcEv)
    (h : itcWF s evs = true)
    (hs : s.refreshCalls = s.settles + s.pendingRefreshes.length) :
    (runItc s evs).refreshCalls =
      (runItc s evs).settles + (runItc s evs).pendingRefreshes.length := by
  induction evs generalizing s with
  | nil => simpa [runItc] using hs
  | cons e rest ih =>
      have h1 : runItc s (e :: rest) = runItc (itcStep s e) rest := by simp [runItc]
      rw [h1]
      simp only [itcWF, Bool.and_eq_true] at h
      obtain ⟨hg, hrest⟩ := h
      refine ih (itcStep s e) hrest ?_
      cases e with
      | hit401 id =>
          by_cases hr : s.isRefreshing
          · simpa [itcStep, hr] using hs
          · simp [itcStep, hr] at hs ⊢
            omega
      | refreshUrl401 id => simpa [itcStep] using hs
      | refreshOk i0 tok =>
          have hmem : i0 ∈ s.pendingRefreshes := by simpa [itcGuard] using hg
          have hlen := List.length_erase_of_mem hmem
          have hpos : 0 < s.pendingRefreshes.length := List.length_pos.mpr
            (List.ne_nil_of_mem hmem)
          simp [itcStep, hlen] at hs ⊢
          omega
      | refreshFail i0 =>
          have hmem : i0 ∈ s.pendingRefreshes := by simpa [itcGuard] using hg
          have hlen := List.length_erase_of_mem hmem
          have hpos : 0 < s.pendingRefreshes.length := List.length_pos.mpr
            (List.ne_nil_of_mem hmem)
          simp [itcStep, hlen] at hs ⊢
          omega

/-- Under the no-reset-during-refresh proviso, the in-progress flag and the
outstanding refresh calls stay in lockstep: exactly one call is outstanding
while `isRefreshing`, none otherwise. -/
theorem itc_single_flight_inv (s : ItcState) (evs : List ItcEv)
    (hwf : itcWF s evs = true)
    (hnr : itcNoResetDuringRefresh s evs = true)
    (hs1 : s.isRefreshing = true → s.pendingRefreshes.length = 1)
    (hs2 : s.isRefreshing = false → s.pendingRefreshes = []) :
    ((runItc s evs).isRefreshing = true →
      (runItc s evs).pendingRefreshes.length = 1) ∧
    ((runItc s evs).isRefreshing = false →
      (runItc s evs).pendingRefreshes = []) := by
  induction evs generalizing s with
  | nil => exact ⟨by simpa [runItc] using hs1, by simpa [runItc] using hs2⟩
  | cons e rest ih =>
      have h1 : runItc s (e :: rest) = runItc (itcStep s e) rest := by simp [runItc]
      rw [h1]
      simp only [itcWF, Bool.and_eq_true] at hwf
      obtain ⟨hg, hwfrest⟩ := hwf
      simp only [itcNoResetDuringRefresh, Bool.and_eq_true] at hnr
      obtain ⟨hc, hnrrest⟩ := hnr
      cases e with
      | hit401 id =>
          by_cases hr : s.isRefreshing = true
          · refine ih _ hwfrest hnrrest ?_ ?_
            · intro _
              simpa [itcStep, hr] using hs1 hr
            · intro hx
              simp [itcStep, hr] at hx
          · have hrf : s.isRefreshing = false := by simpa using hr
            have hq : s.pendingRefreshes = [] := hs2 hrf
            refine ih _ hwfrest hnrrest ?_ ?_
            · intro _
              simp [itcStep, hrf, hq]
            · intro hx
              simp [itcStep, hrf] at hx
      | refreshUrl401 id =>
          have hr : s.isRefreshing = false := by simpa using hc
          have hq : s.pendingRefreshes = [] := hs2 hr
          refine ih _ hwfrest hnrrest ?_ ?_ <;> simp [itcStep, hq]
      | refreshOk i0 tok =>
          have hmem : i0 ∈ s.pendingRefreshes := by simpa [itcGuard] using hg
          have hr : s.isRefreshing = true := by
            by_contra hx
            have : s.pendingRefreshes = [] := hs2 (by simpa using hx)
            rw [this] at hmem
            cases hmem
          have hone : s.pendingRefreshes = [i0] := by
            obtain ⟨a, ha⟩ := List.length_eq_one.mp (hs1 hr)
            rw [ha] at hmem
            rw [ha, List.mem_singleton.mp hmem]
          refine ih _ hwfrest hnrrest ?_ ?_ <;> simp [itcStep, hone]
      | refreshFail i0 =>
          have hmem : i0 ∈ s.pendingRefreshes := by simpa [itcGuard] using hg
          have hr : s.isRefreshing = true := by
            by_contra hx
            have : s.pendingRefreshes = [] := hs2 (by simpa using hx)
            rw [this] at hmem
            cases hmem
          have hone : s.pendingRefreshes = [i0] := by
            obtain ⟨a, ha⟩ := List.length_eq_one.mp (hs1 hr)
            rw [ha] at hmem
            rw [ha, List.mem_singleton.mp hmem]
          refine ih _ hwfrest hnrrest ?_ ?_ <;> simp [itcStep, hone]

/-- Claim C2 counterexample, refuting the claim as stated: request 1's 401
starts the refresh; request 2 — hitting 401 while that refresh is in
progress, with a URL containing the refresh path (`interceptors.ts`
lines 88-94) — is NOT enqueued (it is rejected and it resets
`isRefreshing`); request 3's 401 then issues a SECOND refresh network call
while the first is still outstanding: two in-flight refresh calls exist at
once. -/
theorem refresh_second_inflight_counterexample :
    itcWF itcInit [ItcEv.hit401 1, ItcEv.refreshUrl401 2, ItcEv.hit401 3] = true ∧
    (runItc itcInit
      [ItcEv.hit401 1, ItcEv.refreshUrl401 2, ItcEv.hit401 3]).refreshCalls = 2 ∧
    (runItc itcInit
      [ItcEv.hit401 1, ItcEv.refreshUrl401 2, ItcEv.hit401 3]).settles = 0 ∧
    (runItc itcInit
      [ItcEv.hit401 1, ItcEv.refreshUrl401 2, ItcEv.hit401 3]).pendingRefreshes =
      [1, 3] ∧
    (runItc itcInit
      [ItcEv.hit401 1, ItcEv.refreshUrl401 2, ItcEv.hit401 3]).failedQueue = [] := by
  decide

/-- Claim C2 (amended): provided no default-auth request whose URL contains
the refresh path hits 401 while a refresh is outstanding (the
`interceptors.ts` lines 88-94 reset), at most one in-flight refresh call
exists at any time (the outstanding-calls list never exceeds one, and calls
issued = settlements + outstanding); every ordinary 401 during a refresh
is enqueued rather than issuing a second call; and when the refresh
resolves, every queued entry is resolved with the same fresh token in FIFO
(enqueue) order, followed by the initiator's own retry, and the queue is
cleared. -/
theorem refresh_single_flight_and_fifo (evs : List ItcEv) (i0 : Nat) (tok : String)
    (hwf : itcWF itcInit evs = true)
    (hnr : itcNoResetDuringRefresh itcInit evs = true) :
    (runItc itcInit evs).pendingRefreshes.length ≤ 1 ∧
    ((runItc itcInit evs).refreshCalls =
      (runItc itcInit evs).settles +
        (runItc itcInit evs).pendingRefreshes.length) ∧
    ((runItc itcInit (evs ++ [ItcEv.refreshOk i0 tok])).resolutions =
      (runItc itcInit evs).resolutions ++
        (runItc itcInit evs).failedQueue.map (fun id => (id, tok)) ++
        [(i0, tok)]) ∧
    (runItc itcInit (evs ++ [ItcEv.refreshOk i0 tok])).failedQueue = [] ∧
    (runItc itcInit (evs ++ [ItcEv.refreshOk i0 tok])).storedToken = some tok := by
  refine ⟨?_, ?_, ?_, ?_, ?_⟩
  · obtain ⟨hi1, hi2⟩ := itc_single_flight_inv itcInit evs hwf hnr
      (by simp [itcInit]) (by simp [itcInit])
    cases hr : (runItc itcInit evs).isRefreshing
    · simp [hi2 hr]
    · simp [hi1 hr]
  · exact itc_calls_accounting itcInit evs hwf (by simp [itcInit])
  all_goals rw [runItc_append]; simp [runItc, itcStep]

/-- Witness for C2: three ordinary requests hit 401 in a row, then the one
refresh call resolves; the two queued requests are retried with the same
token in enqueue order, after the single refresh call. -/
theorem refresh_single_flight_and_fifo_witness :
    (runItc itcInit itcDemoTrace).pendingRefreshes.length ≤ 1 ∧
    ((runItc itcInit itcDemoTrace).refreshCalls =
      (runItc itcInit itcDemoTrace).settles +
        (runItc itcInit itcDemoTrace).pendingRefreshes.length) ∧
    ((runItc itcInit (itcDemoTrace ++ [ItcEv.refreshOk 10 "fresh"])).resolutions =
      (runItc itcInit itcDemoTrace).resolutions ++
        (runItc itcInit itcDemoTrace).failedQueue.map (fun id => (id, "fresh")) ++
        [(10, "fresh")]) ∧
    (runItc itcInit (itcDemoTrace ++ [ItcEv.refreshOk 10 "fresh"])).failedQueue = [] ∧
    (runItc itcInit (itcDemoTrace ++ [ItcEv.refreshOk 10 "fresh"])).storedToken =
      some "fresh" :=
  refresh_single_flight_and_fifo itcDemoTrace 10 "fresh" (by decide) (by decide)

/-- Claim C4: when the refresh-endpoint call rejects, every queued entry is
drained with rejection (in queue order, followed by the initiator), the
stored tokens are cleared, and the failure callback has fired exactly once
per refresh failure (the rejection path, lines 157-166, and the refresh-URL
401 path, lines 88-94) over any event history. -/
theorem refresh_failure_drains_and_clears (evs : List ItcEv) (i0 : Nat) :
    ((runItc itcInit evs).failedCb = (evs.filter isRefreshFailureEv).length) ∧
    (runItc itcInit (evs ++ [ItcEv.refreshFail i0])).storedToken = none ∧
    (runItc itcInit (evs ++ [ItcEv.refreshFail i0])).failedQueue = [] ∧
    (runItc itcInit (evs ++ [ItcEv.refreshFail i0])).failedCb =
      (runItc itcInit evs).failedCb + 1 ∧
    (runItc itcInit (evs ++ [ItcEv.refreshFail i0])).rejections =
      (runItc itcInit evs).rejections ++ (runItc itcInit evs).failedQueue ++
        [i0] := by
  refine ⟨?_, ?_, ?_, ?_, ?_⟩
  · rw [runItc_failedCb]
    simp [itcInit]
  all_goals rw [runItc_append]; simp [runItc, itcStep]

/-!
## Claims C6 and C7: the batch engine
-/

/-- A single batch step other than `abortAll` leaves the aborted-controller
log unchanged. -/
theorem batchStep_ctrlAborted (urls : List String) (env : Nat → ItemEnv)
    (s : BatchState) (e : BEv) (h : ¬ e = BEv.abortAll) :
    (batchStep urls env s e).ctrlAborted = s.ctrlAborted := by
  cases e with
  | launch i => rfl
  | claimNext =>
      simp only [batchStep]
      split <;> rfl
  | settle i => rfl
  | abortAll => exact absurd rfl h

/-- An index that never settles in a trace keeps its results entry. -/
theorem runBatch_results_untouched (urls : List String) (env : Nat → ItemEnv)
    (s : BatchState) (tr : List BEv) (j : Nat) (h : BEv.settle j ∉ tr) :
    (runBatch urls env s tr).results j = s.results j := by
  induction tr generalizing s with
  | nil => rfl
  | cons e rest ih =>
      have h1 : runBatch urls env s (e :: rest) =
          runBatch urls env (batchStep urls env s e) rest := by
        simp [runBatch]
      rw [h1, ih _ (fun hm => h (List.mem_cons_of_mem e hm))]
      cases e with
      | launch i => rfl
      | claimNext =>
          simp only [batchStep]
          split <;> rfl
      | settle i =>
          have hij : ¬ (j = i) := by
            intro hji
            subst hji
            exact h (List.mem_cons_self _ _)
          simp [batchStep, hij]
      | abortAll => rfl

/-- In a trace with no abort, an index that settles ends with exactly the
item built from its URL, its original index and its settle environment. -/
theorem runBatch_settled_result (urls : List String) (env : Nat → ItemEnv)
    (s : BatchState) (tr : List BEv) (j : Nat)
    (hno : BEv.abortAll ∉ tr) (hctrl : s.ctrlAborted = [])
    (hj : BEv.settle j ∈ tr) :
    (runBatch urls env s tr).results j = some (expectedItem urls env j) := by
  induction tr generalizing s with
  | nil => cases hj
  | cons e rest ih =>
      have h1 : runBatch urls env s (e :: rest) =
          runBatch urls env (batchStep urls env s e) rest := by
        simp [runBatch]
      rw [h1]
      have hno2 : BEv.abortAll ∉ rest := fun hm => hno (List.mem_cons_of_mem e hm)
      have hne : ¬ e = BEv.abortAll := by
        intro he
        exact hno (he ▸ List.mem_cons_self e rest)
      have hctrl2 : (batchStep urls env s e).ctrlAborted = [] := by
        rw [batchStep_ctrlAborted urls env s e hne, hctrl]
      by_cases hrest : BEv.settle j ∈ rest
      · exact ih _ hno2 hctrl2 hrest
      · have he : e = BEv.settle j := by
          rcases List.mem_cons.mp hj with h' | h'
          · exact h'.symm
          · exact absurd h' hrest
        subst he
        rw [runBatch_results_untouched urls env _ rest j hrest]
        simp [batchStep, hctrl, expectedItem]

/-- Claim C7: batch `execute()` records exactly one `BatchResultItem` per
input URL, placed at the position of its original index, regardless of the
order in which the settle events arrive.  The trace is arbitrary — items
may be launched all at once (unbounded mode) or claimed one at a time by
bounded-concurrency workers, and may settle in any order. -/
theorem batch_results_by_original_index (urls : List String)
    (env : Nat → ItemEnv) (tr : List BEv) (hno : BEv.abortAll ∉ tr)
    (hall : ∀ j, j < urls.length → BEv.settle j ∈ tr) :
    ∀ j, j < urls.length →
      (runBatch urls env batchInit tr).results j =
        some (expectedItem urls env j) := by
  intro j hj
  exact runBatch_settled_result urls env batchInit tr j hno rfl (hall j hj)

/-- Witness for C7: two URLs settling in reverse completion order still end
at their original indices. -/
theorem batch_results_by_original_index_witness :
    (runBatch batchDemoUrls batchDemoEnv batchInit batchDemoTrace).results 0 =
      some (expectedItem batchDemoUrls batchDemoEnv 0) ∧
    (runBatch batchDemoUrls batchDemoEnv batchInit batchDemoTrace).results 1 =
      some (expectedItem batchDemoUrls batchDemoEnv 1) :=
  ⟨batch_results_by_original_index batchDemoUrls batchDemoEnv batchDemoTrace
      (by decide) (by decide) 0 (by decide),
    batch_results_by_original_index batchDemoUrls batchDemoEnv batchDemoTrace
      (by decide) (by decide) 1 (by decide)⟩

/-- Once the batch is aborted, worker and settle events no longer change
the abort flag, the claim pointer, the claimed set or the
aborted-controller log. -/
theorem runBatch_after_abort (urls : List String) (env : Nat → ItemEnv)
    (s : BatchState) (post : List BEv)
    (hA : s.isAborted = true) (hpost : post.all isWorkerEv = true) :
    (runBatch urls env s post).isAborted = true ∧
    (runBatch urls env s post).currentIndex = s.currentIndex ∧
    (runBatch urls env s post).claimed = s.claimed ∧
    (runBatch urls env s post).ctrlAborted = s.ctrlAborted := by
  induction post generalizing s with
  | nil => exact ⟨hA, rfl, rfl, rfl⟩
  | cons e rest ih =>
      have h1 : runBatch urls env s (e :: rest) =
          runBatch urls env (batchStep urls env s e) rest := by
        simp [runBatch]
      rw [h1]
      simp only [List.all_cons, Bool.and_eq_true] at hpost
      obtain ⟨hg, hrest⟩ := hpost
      cases e with
      | launch i => simp [isWorkerEv] at hg
      | abortAll => simp [isWorkerEv] at hg
      | claimNext =>
          have hstep : batchStep urls env s BEv.claimNext = s := by
            simp [batchStep, hA]
          rw [hstep]
          exact ih s hA hrest
      | settle i =>
          exact ih (batchStep urls env s (BEv.settle i)) hA hrest

/-- Supporting fact for C6 (the true conjuncts of the claim): `abort(reason)`
aborts every controller tracked in the per-execution list, and
bounded-concurrency workers observe the aborted flag and stop claiming new
indices — no worker iteration after the abort advances the claim pointer or
claims an index.  This does NOT establish transport-call cancellation; see
`batch_item_signal_overridden`. -/
theorem batch_abort_cancels_pending (urls : List String) (env : Nat → ItemEnv)
    (pre post : List BEv) (hpost : post.all isWorkerEv = true) :
    (∀ i ∈ (runBatch urls env batchInit pre).tracked,
      i ∈ (runBatch urls env batchInit (pre ++ BEv.abortAll :: post)).ctrlAborted) ∧
    (runBatch urls env batchInit (pre ++ BEv.abortAll :: post)).currentIndex =
      (runBatch urls env batchInit pre).currentIndex ∧
    (runBatch urls env batchInit (pre ++ BEv.abortAll :: post)).claimed =
      (runBatch urls env batchInit pre).claimed := by
  have hsplit : pre ++ BEv.abortAll :: post = (pre ++ [BEv.abortAll]) ++ post := by
    simp
  simp only [hsplit, runBatch_append]
  have habort : runBatch urls env (runBatch urls env batchInit pre) [BEv.abortAll] =
      batchStep urls env (runBatch urls env batchInit pre) BEv.abortAll := by
    simp [runBatch]
  rw [habort]
  obtain ⟨hA, hCI, hCl, hCtrl⟩ := runBatch_after_abort urls env
    (batchStep urls env (runBatch urls env batchInit pre) BEv.abortAll) post rfl hpost
  refine ⟨?_, ?_, ?_⟩
  · intro i hi
    rw [hCtrl]
    exact List.mem_append_right _ hi
  · rw [hCI]
    rfl
  · rw [hCl]
    rfl

/-- Concrete instance of the supporting fact: two claimed items, then an
abort, then a further worker iteration and a late settle — both tracked
controllers are aborted and the claim pointer stays put. -/
theorem batch_abort_cancels_pending_demo :
    (∀ i ∈ (runBatch batchDemoUrls batchDemoEnv batchInit
        [BEv.claimNext, BEv.claimNext]).tracked,
      i ∈ (runBatch batchDemoUrls batchDemoEnv batchInit
        ([BEv.claimNext, BEv.claimNext] ++
          BEv.abortAll :: [BEv.claimNext, BEv.settle 0])).ctrlAborted) ∧
    (runBatch batchDemoUrls batchDemoEnv batchInit
        ([BEv.claimNext, BEv.claimNext] ++
          BEv.abortAll :: [BEv.claimNext, BEv.settle 0])).currentIndex =
      (runBatch batchDemoUrls batchDemoEnv batchInit
        [BEv.claimNext, BEv.claimNext]).currentIndex ∧
    (runBatch batchDemoUrls batchDemoEnv batchInit
        ([BEv.claimNext, BEv.claimNext] ++
          BEv.abortAll :: [BEv.claimNext, BEv.settle 0])).claimed =
      (runBatch batchDemoUrls batchDemoEnv batchInit
        [BEv.claimNext, BEv.claimNext]).claimed :=
  batch_abort_cancels_pending batchDemoUrls batchDemoEnv
    [BEv.claimNext, BEv.claimNext] [BEv.claimNext, BEv.settle 0] (by decide)

/-- Claim C6: the claim asserts that batch `abort(reason)`, by aborting the
per-item controllers, cancels the items' in-flight transport calls.  The
transport never observes the per-item signal: in the axios request literal
(`useApi.ts` lines 98-107) the explicit entry `signal: controller.signal`
is written after `...config`, so for every batch item the signal the
transport receives is the orchestrator-internal controller — never the
batch's independent per-item controller passed at `part_004` line 133.
Aborting the batch's tracked controllers therefore cancels no in-flight
transport call (the item is only marked aborted by the post-completion
`signal.aborted` check, `part_004` lines 135-144), contradicting the claim
and the batch's own stated abort support. -/
theorem batch_item_signal_overridden (batchSignal internalCtrl : Nat) :
    axiosRequestSignal (some batchSignal) internalCtrl = some internalCtrl := by
  rfl

/-!
## Claim C1: superseded attempts never write the request state
-/

/-- A settle continuation never changes the started log. -/
theorem orchSettle_started (s : OrchState) (i : Nat) (t : TransportOutcome) :
    (orchSettle s i t).started = s.started := by
  cases t with
  | ok body st => rfl
  | rejected c err =>
      simp only [orchSettle]
      split <;> rfl

/-- A settle continuation never changes the current controller. -/
theorem orchSettle_current (s : OrchState) (i : Nat) (t : TransportOutcome) :
    (orchSettle s i t).current = s.current := by
  cases t with
  | ok body st => rfl
  | rejected c err =>
      simp only [orchSettle]
      split <;> rfl

/-- A settle continuation never changes the aborted set. -/
theorem orchSettle_aborted (s : OrchState) (i : Nat) (t : TransportOutcome) :
    (orchSettle s i t).aborted = s.aborted := by
  cases t with
  | ok body st => rfl
  | rejected c err =>
      simp only [orchSettle]
      split <;> rfl

/-- The continuation of an attempt whose controller was aborted and whose
transport rejected with `ERR_CANCELED` writes nothing: the request state and
the `onFinish` counter are untouched (`useApi.ts` lines 115-117 and
137-139). -/
theorem orchSettle_cancelled_no_write (s : OrchState) (i : Nat)
    (t : TransportOutcome) (hc : isCanceledOutcome t = true) :
    (orchSettle s i t).req = s.req ∧ (orchSettle s i t).finishes = s.finishes := by
  cases t with
  | ok body st => cases hc
  | rejected c err =>
      cases c with
      | false => cases hc
      | true => simp [orchSettle]

/-- Every attempt in the started log is either the current owner or has had
its controller aborted — each `start` aborts the previous owner
(`useApi.ts` line 61). -/
theorem runOrch_started_inv (s : OrchState) (tr : List OEv)
    (h : ∀ j, j ∈ s.started → s.current = some j ∨ j ∈ s.aborted) :
    ∀ j, j ∈ (runOrch s tr).started →
      (runOrch s tr).current = some j ∨ j ∈ (runOrch s tr).aborted := by
  induction tr generalizing s with
  | nil => simpa [runOrch] using h
  | cons e rest ih =>
      have h1 : runOrch s (e :: rest) = runOrch (orchStep s e) rest := by
        simp [runOrch]
      rw [h1]
      refine ih (orchStep s e) ?_
      cases e with
      | start i =>
          intro j hj
          simp only [orchStep, orchStart] at hj ⊢
          rcases List.mem_append.mp hj with hj1 | hj1
          · right
            rcases h j hj1 with hc | ha
            · rw [hc]
              exact List.mem_append_right _ (List.mem_singleton.mpr rfl)
            · cases hcur : s.current with
              | none => exact ha
              | some c => exact List.mem_append_left _ ha
          · left
            rw [List.mem_singleton.mp hj1]
      | settle i t =>
          intro j hj
          simp only [orchStep] at hj ⊢
          rw [orchSettle_started] at hj
          rw [orchSettle_current, orchSettle_aborted]
          exact h j hj

/-- Claim C1: for every sequence of interleaved `execute()` attempts on one
orchestrator, an attempt that was superseded before its transport settled
(its local controller aborted by a later `execute`, so — per the transport
contract in `orchWF` — its promise rejects with `ERR_CANCELED`) performs no
state mutation on completion: processing its settle event leaves the
reactive request state (data, error, loading, statusCode) and the
`onFinish` count exactly as they were, so a stale response never overwrites
state owned by a newer request and only the last call's result is ever
written. -/
theorem superseded_attempt_no_write (pre post : List OEv) (i : Nat)
    (t : TransportOutcome)
    (hwf : orchWF orchInit (pre ++ OEv.settle i t :: post) = true)
    (hsup : superseded (runOrch orchInit pre) i = true) :
    (runOrch orchInit (pre ++ [OEv.settle i t])).req =
      (runOrch orchInit pre).req ∧
    (runOrch orchInit (pre ++ [OEv.settle i t])).finishes =
      (runOrch orchInit pre).finishes := by
  rw [orchWF_append] at hwf
  simp only [Bool.and_eq_true] at hwf
  obtain ⟨hwf1, hwf2⟩ := hwf
  simp only [orchWF, Bool.and_eq_true] at hwf2
  obtain ⟨hguard, _⟩ := hwf2
  simp only [orchGuard, Bool.and_eq_true] at hguard
  obtain ⟨⟨hstarted, hnotsettled⟩, hcontract⟩ := hguard
  simp only [superseded, Bool.and_eq_true, bne_iff_ne, ne_eq] at hsup
  obtain ⟨hstarted2, hne⟩ := hsup
  have hmem : i ∈ (runOrch orchInit pre).started := by
    simpa using hstarted2
  have hinv := runOrch_started_inv orchInit pre
    (by
      intro j hj
      simp [orchInit] at hj)
    i hmem
  have habort : i ∈ (runOrch orchInit pre).aborted := by
    rcases hinv with hc | ha
    · exact absurd hc hne
    · exact ha
  have habort2 : (runOrch orchInit pre).aborted.contains i = true := by
    simpa using habort
  have hcanceled : isCanceledOutcome t = true := by
    rw [Bool.or_eq_true] at hcontract
    rcases hcontract with hx | hx
    · rw [Bool.not_eq_true'] at hx
      rw [habort2] at hx
      cases hx
    · exact hx
  rw [runOrch_append]
  have hone : runOrch (runOrch orchInit pre) [OEv.settle i t] =
      orchSettle (runOrch orchInit pre) i t := by
    simp [runOrch, orchStep]
  rw [hone]
  exact orchSettle_cancelled_no_write (runOrch orchInit pre) i t hcanceled

/-- Witness for C1: two rapid `execute()` calls, then attempt 0's transport
settles (as an `ERR_CANCELED` rejection per the transport contract): the
request state and the finish count are untouched. -/
theorem superseded_attempt_no_write_witness :
    (runOrch orchInit
        (orchDemoPre ++ [OEv.settle 0 (.rejected true (.plainError "c"))])).req =
      (runOrch orchInit orchDemoPre).req ∧
    (runOrch orchInit
        (orchDemoPre ++ [OEv.settle 0 (.rejected true (.plainError "c"))])).finishes =
      (runOrch orchInit orchDemoPre).finishes :=
  superseded_attempt_no_write orchDemoPre [] 0
    (.rejected true (.plainError "c")) (by decide) (by decide)

end VueUseApi
